import Mathlib

/-!
Shallow embedding of the face-swap HTTP service (`api.py`) of the
video-face-swap repository.

The embedding models the `/swap` request handler `face_swap`, the `/health`
handler `health_check`, and `initialize_models`, together with the external
world each request observes (filesystem, the roop adapter, the cloud-storage
client) as an explicit environment record.  JSON responses are modelled as
association lists of field names to values; `send_file` responses as a
`file` body carrying the mimetype, the `as_attachment` flag and the
download name.  Side effects the handler performs (model initialization,
adapter invocation, metrics logging, cleanup scheduling) are recorded in an
`Effects` trace returned alongside the response.
-/

/-- A JSON value as produced by `jsonify` (only the shapes the handlers emit). -/
inductive JVal where
  | str : String → JVal
  | num : Nat → JVal
  | bool : Bool → JVal
deriving DecidableEq, Repr

/-- An HTTP response body: either a JSON object (`jsonify`) or a file
transfer (`send_file` with mimetype, `as_attachment`, `download_name`). -/
inductive Body where
  | json : List (String × JVal) → Body
  | file : String → Bool → String → Body
deriving DecidableEq, Repr

/-- An HTTP response: status code plus body. -/
structure Response where
  status : Nat
  body : Body
deriving DecidableEq, Repr

/-- Field lookup in a JSON body (`none` for a file body). -/
def jsonField (b : Body) (k : String) : Option JVal :=
  match b with
  | .json fs => fs.lookup k
  | .file _ _ _ => none

/-- Whether a JSON body carries a field with the given name. -/
def hasJsonField (b : Body) (k : String) : Bool :=
  match b with
  | .json fs => fs.any (fun kv => kv.1 == k)
  | .file _ _ _ => false

/-- Whether the body is a `send_file` (binary) body. -/
def Body.isFile : Body → Bool
  | .json _ => false
  | .file _ _ _ => true

/-- The validated `SwapRequest` pydantic model of `api.py` (defaults:
`output_format="mp4"`, `keep_frames=False`, `keep_fps=True`,
`many_faces=False`, `skip_audio=False`, `use_cloud_storage=True`). -/
structure SwapParams where
  output_format : String := "mp4"
  keep_frames : Bool := false
  keep_fps : Bool := true
  many_faces : Bool := false
  skip_audio : Bool := false
  use_cloud_storage : Bool := true
deriving DecidableEq, Repr

/-- The `SwapRequest` default instance. -/
def defaultParams : SwapParams := {}

/-- The external world one `/swap` request observes: the multipart request
shape, what `is_image`/`is_video` report on the staged files, whether the
adapter calls raise, whether the output file exists afterwards, whether the
module-level `bucket` is configured, and what `upload_to_gcs` does. -/
structure Env where
  initError : Option String
  hasSource : Bool
  hasTarget : Bool
  paramsResult : Except String SwapParams
  sourceIsImage : Bool
  targetIsImage : Bool
  targetIsVideo : Bool
  processImageError : Option String
  processVideoError : Option String
  outputExists : Bool
  bucketConfigured : Bool
  uploadOutcome : Except String String

/-- The side-effect trace of one `/swap` request. -/
structure Effects where
  initializeModelsCalled : Bool
  adapterInvoked : Bool
  videoExt : Option String
  contentType : Option String
  storageType : Option String
  uploadAttempted : Bool
  metricsLogged : Nat
  cleanupScheduledDelay : Option Nat
  releaseInvokedInHandler : Bool
  finalStatus : String
deriving DecidableEq, Repr

/-- The effect trace at handler entry (metrics `status` starts `"started"`). -/
def baseEff : Effects :=
  { initializeModelsCalled := false
    adapterInvoked := false
    videoExt := none
    contentType := none
    storageType := none
    uploadAttempted := false
    metricsLogged := 0
    cleanupScheduledDelay := none
    releaseInvokedInHandler := false
    finalStatus := "started" }

/-- An error JSON body: `jsonify({"error": msg, "request_id": request_id})`. -/
def errJson (msg rid : String) : Body :=
  .json [("error", .str msg), ("request_id", .str rid)]

/-- The success JSON body of the cloud-storage branch:
`jsonify({"status": "success", "request_id": ..., "url": ..., "processing_time": ...})`. -/
def urlBody (rid url pt : String) : Body :=
  .json [("status", .str "success"), ("request_id", .str rid),
         ("url", .str url), ("processing_time", .str pt)]

/-- Python `str.lower()`: character-wise ASCII lowercasing. -/
def pyLower (s : String) : String :=
  ⟨s.data.map Char.toLower⟩

/-- `output_ext` selection for the video branch: lowercase the requested
format and fall back to `"mp4"` when it is not in the fixed set. -/
def chooseExt (fmt : String) : String :=
  let e := pyLower fmt
  if ["mp4", "webm", "mov", "avi"].contains e then e else "mp4"

/-- The mimetype chain of the video branch of `face_swap`. -/
def videoContentType (ext : String) : String :=
  if ext = "mp4" then "video/mp4"
  else if ext = "webm" then "video/webm"
  else if ext = "mov" then "video/quicktime"
  else "video/x-msvideo"

/-- The direct-return tail of `face_swap`: `send_file(result_path,
mimetype=content_type, as_attachment=True, download_name=basename)` with
metrics `storage_type="direct"`, `status="success"`. -/
def directReturn (contentType fname : String) (eff : Effects) : Response × Effects :=
  (⟨200, .file contentType true fname⟩,
   { eff with storageType := some "direct", finalStatus := "success" })

/-- The tail of `face_swap` after the adapter produced `result_path`: the
output-existence check, the optional cloud-storage upload with fallback, and
the direct file return. -/
def afterProcess (env : Env) (rid pt : String) (params : SwapParams)
    (contentType fname : String) (eff : Effects) : Response × Effects :=
  if !env.outputExists then
    (⟨500, errJson "Failed to generate output file" rid⟩,
     { eff with finalStatus := "error_processing_failed" })
  else if params.use_cloud_storage && env.bucketConfigured then
    match env.uploadOutcome with
    | .ok url =>
      if url ≠ "" then
        (⟨200, urlBody rid url pt⟩,
         { eff with uploadAttempted := true, storageType := some "cloud_storage",
                    finalStatus := "success" })
      else
        directReturn contentType fname { eff with uploadAttempted := true }
    | .error _ =>
      directReturn contentType fname { eff with uploadAttempted := true }
  else
    directReturn contentType fname eff

/-- The `try` body of the `/swap` handler together with its `except Exception`
clause: `initialize_models()`, file-part check, parameter parsing, media-kind
checks, image/video dispatch to the adapter, output check, storage branch;
any exception raised by initialization or the adapter is converted to a 500
`{error, request_id}` JSON with metrics status `error_exception`. -/
def face_swap_try (env : Env) (rid pt : String) : Response × Effects :=
  let eff := { baseEff with initializeModelsCalled := true }
  match env.initError with
  | some msg => (⟨500, errJson msg rid⟩, { eff with finalStatus := "error_exception" })
  | none =>
  if !(env.hasSource && env.hasTarget) then
    (⟨400, errJson "Both source and target files are required" rid⟩,
     { eff with finalStatus := "error_missing_files" })
  else
    match env.paramsResult with
    | .error e =>
      (⟨400, errJson ("Invalid parameters: " ++ e) rid⟩,
       { eff with finalStatus := "error_invalid_params" })
    | .ok params =>
    if !env.sourceIsImage then
      (⟨400, errJson "Source file must be an image" rid⟩,
       { eff with finalStatus := "error_invalid_source" })
    else if !(env.targetIsImage || env.targetIsVideo) then
      (⟨400, errJson "Target file must be an image or video" rid⟩,
       { eff with finalStatus := "error_invalid_target" })
    else if env.targetIsImage then
      match env.processImageError with
      | some msg =>
        (⟨500, errJson msg rid⟩,
         { eff with adapterInvoked := true, finalStatus := "error_exception" })
      | none =>
        afterProcess env rid pt params "image/png" ("output_" ++ rid ++ ".png")
          { eff with adapterInvoked := true, contentType := some "image/png" }
    else
      let ext := chooseExt params.output_format
      match env.processVideoError with
      | some msg =>
        (⟨500, errJson msg rid⟩,
         { eff with adapterInvoked := true, videoExt := some ext,
                    finalStatus := "error_exception" })
      | none =>
        afterProcess env rid pt params (videoContentType ext)
          ("output_" ++ rid ++ "." ++ ext)
          { eff with adapterInvoked := true, videoExt := some ext,
                     contentType := some (videoContentType ext) }

/-- The complete `/swap` handler: the `try/except` body followed by the
`finally` block, which logs the single metrics record and schedules the
workspace cleanup on a 60-second `threading.Timer` without invoking it
in the handler. -/
def face_swap (env : Env) (rid pt : String) : Response × Effects :=
  let r := face_swap_try env rid pt
  (r.1, { r.2 with metricsLogged := r.2.metricsLogged + 1,
                   cleanupScheduledDelay := some 60 })

/-- The process-wide model handles (`face_swapper`, `face_analyser`). -/
structure ModelState where
  face_swapper : Option Nat
  face_analyser : Option Nat
deriving DecidableEq, Repr

/-- `initialize_models`: construct each model only when its handle is still
`None`.  The two extra arguments stand for the handles `get_face_swapper()` /
`get_face_analyser()` would produce; the returned `Nat` counts how many model
constructions actually happened. -/
def initialize_models (s : ModelState) (freshSwapper freshAnalyser : Nat) :
    ModelState × Nat :=
  let fs := match s.face_swapper with
    | none => (some freshSwapper, 1)
    | some h => (some h, 0)
  let fa := match s.face_analyser with
    | none => (some freshAnalyser, 1)
    | some h => (some h, 0)
  (⟨fs.1, fa.1⟩, fs.2 + fa.2)

/-- The `/health` handler: always 200, with the fixed status string and the
diagnostic fields computed from process state. -/
def health_check (s : ModelState) (timestamp : Nat) (version : String)
    (storageBucket : Option String) : Response :=
  ⟨200, .json [("status", .str "healthy"),
               ("timestamp", .num timestamp),
               ("version", .str version),
               ("models_loaded", .bool (s.face_swapper.isSome && s.face_analyser.isSome)),
               ("cloud_storage", .bool storageBucket.isSome)]⟩

/-- Whether the request reached a successful adapter run: the branch-relevant
adapter call did not raise. -/
def processOk (env : Env) : Prop :=
  if env.targetIsImage then env.processImageError = none
  else env.processVideoError = none

/-- Python truthiness of `gcs_url` after `upload_to_gcs`: the upload returned
(did not raise) and the URL is non-empty. -/
def uploadYieldsUrl (env : Env) : Bool :=
  match env.uploadOutcome with
  | .ok url => url != ""
  | .error _ => false

/-- The content type the handler computes for the produced artifact. -/
def expectedContentType (env : Env) (p : SwapParams) : String :=
  if env.targetIsImage then "image/png"
  else videoContentType (chooseExt p.output_format)

/-- The download name of the produced artifact. -/
def expectedName (env : Env) (rid : String) (p : SwapParams) : String :=
  if env.targetIsImage then "output_" ++ rid ++ ".png"
  else "output_" ++ rid ++ "." ++ chooseExt p.output_format

/-- The URL `upload_to_gcs` returned (empty when it raised). -/
def urlOf (env : Env) : String :=
  match env.uploadOutcome with
  | .ok u => u
  | .error _ => ""

/-- On every path, the `try/except` body of the handler logs no metrics
record itself, never removes the workspace, and has called
`initialize_models`. -/
theorem face_swap_try_eff (env : Env) (rid pt : String) :
    (face_swap_try env rid pt).2.metricsLogged = 0 ∧
    (face_swap_try env rid pt).2.releaseInvokedInHandler = false ∧
    (face_swap_try env rid pt).2.initializeModelsCalled = true := by
  simp only [face_swap_try, afterProcess, directReturn, baseEff]
  repeat' split
  all_goals exact ⟨rfl, rfl, rfl⟩

/-- Characterization of the response of a request that passes validation and
processing: either the cloud-storage URL JSON or the direct file return,
selected by `use_cloud_storage`, the configured bucket, and the truthiness of
the uploaded URL. -/
theorem face_swap_success_resp (env : Env) (rid pt : String) (p : SwapParams)
    (hinit : env.initError = none) (hs : env.hasSource = true)
    (ht : env.hasTarget = true) (hp : env.paramsResult = .ok p)
    (hsi : env.sourceIsImage = true)
    (htk : env.targetIsImage = true ∨ env.targetIsVideo = true)
    (hproc : processOk env) (hout : env.outputExists = true) :
    (face_swap env rid pt).1 =
      if p.use_cloud_storage && env.bucketConfigured && uploadYieldsUrl env then
        ⟨200, urlBody rid (urlOf env) pt⟩
      else
        ⟨200, .file (expectedContentType env p) true (expectedName env rid p)⟩ := by
  cases env with
  | mk ie hsrc htgt pr si ti tv pie pve oe bc uo =>
    simp only [processOk] at hproc
    simp only at hinit hs ht hp hsi htk hproc hout
    subst hinit hs ht hp hsi hout
    cases ti with
    | true =>
      have hpie : pie = none := by simpa using hproc
      subst hpie
      simp only [face_swap, face_swap_try, afterProcess, directReturn,
                 expectedContentType, expectedName, uploadYieldsUrl, urlOf]
      cases uo with
      | ok url =>
        by_cases hurl : url = "" <;>
          cases hcb : p.use_cloud_storage && bc <;>
            simp [hurl, hcb]
      | error e =>
        cases hcb : p.use_cloud_storage && bc <;> simp [hcb]
    | false =>
      have htv : tv = true := by
        rcases htk with h | h
        · exact absurd h (by simp)
        · exact h
      subst htv
      have hpve : pve = none := by simpa using hproc
      subst hpve
      simp only [face_swap, face_swap_try, afterProcess, directReturn,
                 expectedContentType, expectedName, uploadYieldsUrl, urlOf]
      cases uo with
      | ok url =>
        by_cases hurl : url = "" <;>
          cases hcb : p.use_cloud_storage && bc <;>
            simp [hurl, hcb]
      | error e =>
        cases hcb : p.use_cloud_storage && bc <;> simp [hcb]

/-- On the video path the effect trace records the selected container
extension and its mimetype, independently of the storage branch taken. -/
theorem face_swap_video_eff (env : Env) (rid pt : String) (p : SwapParams)
    (hinit : env.initError = none) (hs : env.hasSource = true)
    (ht : env.hasTarget = true) (hp : env.paramsResult = .ok p)
    (hsi : env.sourceIsImage = true) (hti : env.targetIsImage = false)
    (htv : env.targetIsVideo = true) (hproc : env.processVideoError = none)
    (hout : env.outputExists = true) :
    (face_swap env rid pt).2.videoExt = some (chooseExt p.output_format) ∧
    (face_swap env rid pt).2.contentType =
      some (videoContentType (chooseExt p.output_format)) := by
  cases env with
  | mk ie hsrc htgt pr si ti tv pie pve oe bc uo =>
    simp only at hinit hs ht hp hsi hti htv hproc hout
    subst hinit hs ht hp hsi hti htv hproc hout
    simp only [face_swap, face_swap_try, afterProcess, directReturn]
    cases uo with
    | ok url =>
      by_cases hurl : url = "" <;>
        cases hcb : p.use_cloud_storage && bc <;>
          simp [hurl, hcb]
    | error e =>
      cases hcb : p.use_cloud_storage && bc <;> simp [hcb]

/-- A `/swap` request with no file parts attached. -/
def envMissingFiles : Env :=
  { initError := none, hasSource := false, hasTarget := false,
    paramsResult := .ok defaultParams, sourceIsImage := false,
    targetIsImage := false, targetIsVideo := false,
    processImageError := none, processVideoError := none,
    outputExists := false, bucketConfigured := false,
    uploadOutcome := .ok "" }

/-- A valid image-target `/swap` request in which `process_image` raises
`ValueError("No face detected in source image")`. -/
def envNoFace : Env :=
  { initError := none, hasSource := true, hasTarget := true,
    paramsResult := .ok defaultParams, sourceIsImage := true,
    targetIsImage := true, targetIsVideo := false,
    processImageError := some "No face detected in source image",
    processVideoError := none, outputExists := false,
    bucketConfigured := false, uploadOutcome := .ok "" }

/-- A successful image-target `/swap` request with the bucket configured,
`use_cloud_storage=true`, and a succeeding upload. -/
def envImageCloud : Env :=
  { initError := none, hasSource := true, hasTarget := true,
    paramsResult := .ok defaultParams, sourceIsImage := true,
    targetIsImage := true, targetIsVideo := false,
    processImageError := none, processVideoError := none,
    outputExists := true, bucketConfigured := true,
    uploadOutcome := .ok "https://storage.googleapis.com/bucket/out.png" }

/-- A successful image-target `/swap` request with no bucket configured. -/
def envImageDirect : Env :=
  { initError := none, hasSource := true, hasTarget := true,
    paramsResult := .ok defaultParams, sourceIsImage := true,
    targetIsImage := true, targetIsVideo := false,
    processImageError := none, processVideoError := none,
    outputExists := true, bucketConfigured := false,
    uploadOutcome := .ok "" }

/-- Parameters asking for the unrecognized output format `"xyz"` with cloud
storage disabled. -/
def xyzParams : SwapParams :=
  { output_format := "xyz", keep_frames := false, keep_fps := true,
    many_faces := false, skip_audio := false, use_cloud_storage := false }

/-- A successful video-target `/swap` request asking for the unrecognized
output format `"xyz"`, with cloud storage disabled. -/
def envVideoXyz : Env :=
  { initError := none, hasSource := true, hasTarget := true,
    paramsResult := .ok xyzParams,
    sourceIsImage := true, targetIsImage := false, targetIsVideo := true,
    processImageError := none, processVideoError := none,
    outputExists := true, bucketConfigured := false,
    uploadOutcome := .ok "" }

/-- A `/swap` request whose staged source file is not an image. -/
def envBadSource : Env :=
  { initError := none, hasSource := true, hasTarget := true,
    paramsResult := .ok defaultParams, sourceIsImage := false,
    targetIsImage := false, targetIsVideo := false,
    processImageError := none, processVideoError := none,
    outputExists := false, bucketConfigured := false,
    uploadOutcome := .ok "" }

/-- C2: On every exit path of the `/swap` handler, exactly one structured
metrics record is emitted and workspace release is scheduled on a 60-second
timer rather than being invoked synchronously in the handler. -/
theorem c2_metrics_and_cleanup (env : Env) (rid pt : String) :
    (face_swap env rid pt).2.metricsLogged = 1 ∧
    (face_swap env rid pt).2.cleanupScheduledDelay = some 60 ∧
    (face_swap env rid pt).2.releaseInvokedInHandler = false := by
  obtain ⟨h1, h2, h3⟩ := face_swap_try_eff env rid pt
  simp [face_swap, h1, h2]

/-- C3 counterexample: a `/swap` request with missing file parts is answered
with 400, yet model initialization has been triggered — `initialize_models()`
runs before any validation, contradicting the claim that validation failures
return without triggering adapter/model initialization. -/
theorem c3_counterexample :
    (face_swap envMissingFiles "r" "0").1.status = 400 ∧
    (face_swap envMissingFiles "r" "0").2.initializeModelsCalled = true :=
  ⟨rfl, rfl⟩

/-- C3 (amended): every 400 response of the `/swap` handler is produced
without invoking the adapter's processing operations, but model
initialization has always already been triggered when the 400 is returned. -/
theorem c3_validation_before_adapter (env : Env) (rid pt : String)
    (h : (face_swap env rid pt).1.status = 400) :
    (face_swap env rid pt).2.adapterInvoked = false ∧
    (face_swap env rid pt).2.initializeModelsCalled = true := by
  revert h
  simp only [face_swap, face_swap_try, afterProcess, directReturn, baseEff]
  repeat' split
  all_goals simp

/-- C3 witness: the amended statement holds at the missing-files request. -/
theorem c3_validation_before_adapter_witness :
    (face_swap envMissingFiles "r" "0").2.adapterInvoked = false ∧
    (face_swap envMissingFiles "r" "0").2.initializeModelsCalled = true :=
  c3_validation_before_adapter envMissingFiles "r" "0" rfl

/-- C8: model initialization is idempotent: once both handles are set, a
further `initialize_models` call leaves the state unchanged and constructs
nothing; and after any call both handles are set, so a repeated call is a
no-op. -/
theorem c8_initialize_models_idempotent (s : ModelState) (a b c d : Nat)
    (h1 : s.face_swapper.isSome = true) (h2 : s.face_analyser.isSome = true) :
    (initialize_models s a b).1 = s ∧
    (initialize_models s a b).2 = 0 ∧
    (initialize_models (initialize_models s c d).1 a b).1 =
      (initialize_models s c d).1 := by
  cases s with
  | mk fs fa => cases fs <;> cases fa <;> simp_all [initialize_models]

/-- C8 witness: the idempotence statement holds at a state with both
handles set. -/
theorem c8_initialize_models_idempotent_witness :
    (initialize_models ⟨some 5, some 7⟩ 1 2).1 = (⟨some 5, some 7⟩ : ModelState) ∧
    (initialize_models ⟨some 5, some 7⟩ 1 2).2 = 0 ∧
    (initialize_models (initialize_models ⟨some 5, some 7⟩ 3 4).1 1 2).1 =
      (initialize_models ⟨some 5, some 7⟩ 3 4).1 :=
  c8_initialize_models_idempotent ⟨some 5, some 7⟩ 1 2 3 4 rfl rfl

/-- C10: `/health` always answers 200 with status `"healthy"` regardless of
model state, never `"initializing"`; `models_loaded` independently reports
whether both handles are set, and a `"healthy"` response with
`models_loaded=false` is possible. -/
theorem c10_health_always_healthy (s : ModelState) (ts : Nat) (ver : String)
    (sb : Option String) :
    (health_check s ts ver sb).status = 200 ∧
    jsonField (health_check s ts ver sb).body "status" = some (.str "healthy") ∧
    jsonField (health_check s ts ver sb).body "models_loaded" =
      some (.bool (s.face_swapper.isSome && s.face_analyser.isSome)) ∧
    jsonField (health_check s ts ver sb).body "status" ≠ some (.str "initializing") ∧
    (∃ s' : ModelState,
      jsonField (health_check s' ts ver sb).body "status" = some (.str "healthy") ∧
      jsonField (health_check s' ts ver sb).body "models_loaded" =
        some (.bool false)) := by
  refine ⟨rfl, rfl, rfl, ?_, ⟨⟨none, none⟩, rfl, rfl⟩⟩
  simp [health_check, jsonField]

/-- C1: for every successful `/swap` request, the response body is the URL
JSON object iff the bucket is configured, the caller requested cloud storage,
and the upload succeeds (truthy URL); in every other case — including an
upload that raises — the response is still HTTP 200 with the artifact
returned inline under the content type computed for the produced format, so
a storage failure is never surfaced. -/
theorem c1_response_selection (env : Env) (rid pt : String) (p : SwapParams)
    (hinit : env.initError = none) (hs : env.hasSource = true)
    (ht : env.hasTarget = true) (hp : env.paramsResult = .ok p)
    (hsi : env.sourceIsImage = true)
    (htk : env.targetIsImage = true ∨ env.targetIsVideo = true)
    (hproc : processOk env) (hout : env.outputExists = true) :
    (face_swap env rid pt).1.status = 200 ∧
    ((∃ url, (face_swap env rid pt).1.body = urlBody rid url pt) ↔
      (p.use_cloud_storage = true ∧ env.bucketConfigured = true ∧
        uploadYieldsUrl env = true)) ∧
    (¬(p.use_cloud_storage = true ∧ env.bucketConfigured = true ∧
        uploadYieldsUrl env = true) →
      (face_swap env rid pt).1.body =
        .file (expectedContentType env p) true (expectedName env rid p)) := by
  have h := face_swap_success_resp env rid pt p hinit hs ht hp hsi htk hproc hout
  by_cases hc : p.use_cloud_storage = true ∧ env.bucketConfigured = true ∧
      uploadYieldsUrl env = true
  · have hb : (p.use_cloud_storage && env.bucketConfigured &&
        uploadYieldsUrl env) = true := by
      simp [hc.1, hc.2.1, hc.2.2]
    rw [hb] at h
    simp only [if_pos] at h
    refine ⟨by rw [h], ⟨fun _ => hc, fun _ => ⟨urlOf env, by rw [h]⟩⟩,
            fun hn => absurd hc hn⟩
  · have hb : (p.use_cloud_storage && env.bucketConfigured &&
        uploadYieldsUrl env) = false := by
      cases hcb : (p.use_cloud_storage && env.bucketConfigured &&
          uploadYieldsUrl env) with
      | false => rfl
      | true =>
        rw [Bool.and_eq_true, Bool.and_eq_true] at hcb
        exact absurd ⟨hcb.1.1, hcb.1.2, hcb.2⟩ hc
    rw [hb] at h
    simp only [Bool.false_eq_true, if_false] at h
    refine ⟨by rw [h], ⟨?_, fun hcc => absurd hcc hc⟩, fun _ => by rw [h]⟩
    rintro ⟨url, hu⟩
    rw [h] at hu
    simp [urlBody] at hu

/-- C1 witness: the statement instantiated at a successful image-target
request with the bucket configured, cloud storage requested, and a
succeeding upload. -/
theorem c1_response_selection_witness :
    (face_swap envImageCloud "r" "1").1.status = 200 ∧
    ((∃ url, (face_swap envImageCloud "r" "1").1.body = urlBody "r" url "1") ↔
      (defaultParams.use_cloud_storage = true ∧
        envImageCloud.bucketConfigured = true ∧
        uploadYieldsUrl envImageCloud = true)) ∧
    (¬(defaultParams.use_cloud_storage = true ∧
        envImageCloud.bucketConfigured = true ∧
        uploadYieldsUrl envImageCloud = true) →
      (face_swap envImageCloud "r" "1").1.body =
        .file (expectedContentType envImageCloud defaultParams) true
          (expectedName envImageCloud "r" defaultParams)) :=
  c1_response_selection envImageCloud "r" "1" defaultParams rfl rfl rfl rfl rfl
    (Or.inl rfl) rfl rfl

/-- C4 counterexample: a valid image-target request in which no face is
detected is answered 500 (the `ValueError` falls into the generic exception
handler), not 400 as the claim requires for this client-side cause. -/
theorem c4_counterexample :
    (face_swap envNoFace "r" "0").1.status = 500 ∧
    jsonField (face_swap envNoFace "r" "0").1.body "error" =
      some (.str "No face detected in source image") ∧
    (face_swap envNoFace "r" "0").2.finalStatus = "error_exception" :=
  ⟨rfl, rfl, rfl⟩

/-- C4 (amended): every non-200 response body carries both an `error` and a
`request_id` field; the status is 400 exactly for the four validation causes
(missing files, bad parameters, non-image source, invalid target) and 500
exactly for processing failures and unhandled exceptions — so a no-face
`ValueError`, and in particular the request `envNoFace`, yields 500 via the
exception path, not 400. -/
theorem c4_status_classification (env : Env) (rid pt : String) :
    ((face_swap env rid pt).1.status = 200 ∨
      (hasJsonField (face_swap env rid pt).1.body "error" = true ∧
       hasJsonField (face_swap env rid pt).1.body "request_id" = true)) ∧
    ((face_swap env rid pt).1.status = 400 ↔
      ((face_swap env rid pt).2.finalStatus = "error_missing_files" ∨
       (face_swap env rid pt).2.finalStatus = "error_invalid_params" ∨
       (face_swap env rid pt).2.finalStatus = "error_invalid_source" ∨
       (face_swap env rid pt).2.finalStatus = "error_invalid_target")) ∧
    ((face_swap env rid pt).1.status = 500 ↔
      ((face_swap env rid pt).2.finalStatus = "error_exception" ∨
       (face_swap env rid pt).2.finalStatus = "error_processing_failed")) := by
  simp only [face_swap, face_swap_try, afterProcess, directReturn, baseEff]
  repeat' split
  all_goals simp [hasJsonField, errJson, urlBody]

/-- C4 witness: the classification instantiated at the no-face request. -/
theorem c4_status_classification_witness :
    (face_swap envNoFace "r" "0").1.status = 500 ↔
      ((face_swap envNoFace "r" "0").2.finalStatus = "error_exception" ∨
       (face_swap envNoFace "r" "0").2.finalStatus = "error_processing_failed") :=
  (c4_status_classification envNoFace "r" "0").2.2

/-- C5: for every otherwise-valid video-target request, the requested output
format is validated against the set {mp4, webm, mov, avi}; an unrecognized
value silently coerces the container extension and mimetype to mp4 and the
request still succeeds with 200, never 400. -/
theorem c5_format_coercion (env : Env) (rid pt : String) (p : SwapParams)
    (hinit : env.initError = none) (hs : env.hasSource = true)
    (ht : env.hasTarget = true) (hp : env.paramsResult = .ok p)
    (hsi : env.sourceIsImage = true) (hti : env.targetIsImage = false)
    (htv : env.targetIsVideo = true) (hproc : env.processVideoError = none)
    (hout : env.outputExists = true)
    (hfmt : ["mp4", "webm", "mov", "avi"].contains (pyLower p.output_format) = false) :
    chooseExt p.output_format = "mp4" ∧
    (face_swap env rid pt).2.videoExt = some "mp4" ∧
    (face_swap env rid pt).2.contentType = some "video/mp4" ∧
    (face_swap env rid pt).1.status = 200 ∧
    (face_swap env rid pt).1.status ≠ 400 := by
  have hch : chooseExt p.output_format = "mp4" := by
    simp only [chooseExt]
    rw [hfmt]
    simp
  have heff := face_swap_video_eff env rid pt p hinit hs ht hp hsi hti htv hproc hout
  have hpo : processOk env := by simp [processOk, hti, hproc]
  have hr := face_swap_success_resp env rid pt p hinit hs ht hp hsi (Or.inr htv)
    hpo hout
  have hst : (face_swap env rid pt).1.status = 200 := by
    split at hr <;> rw [hr]
  refine ⟨hch, by rw [heff.1, hch], ?_, hst, by rw [hst]; decide⟩
  rw [heff.2, hch]
  simp [videoContentType]

/-- C5 witness: the coercion statement at a concrete request asking for
format `"xyz"`. -/
theorem c5_format_coercion_witness :
    chooseExt "xyz" = "mp4" ∧
    (face_swap envVideoXyz "r" "1").2.videoExt = some "mp4" ∧
    (face_swap envVideoXyz "r" "1").2.contentType = some "video/mp4" ∧
    (face_swap envVideoXyz "r" "1").1.status = 200 ∧
    (face_swap envVideoXyz "r" "1").1.status ≠ 400 :=
  c5_format_coercion envVideoXyz "r" "1" xyzParams
    rfl rfl rfl rfl rfl rfl rfl rfl rfl (by decide)

/-- Whether the character list `sub` occurs contiguously in `l`: some offset
of `l` starts with `sub`. -/
def subOccurs (sub l : List Char) : Bool :=
  (List.range (l.length + 1)).any (fun i => (l.drop i).take sub.length == sub)

/-- Whether `sub` occurs as a contiguous substring of `s`. -/
def strContains (s sub : String) : Bool :=
  subOccurs sub.data s.data

/-- `subOccurs` finds a sub-list planted between two others, so it is
complete for the prefix-infix-suffix decomposition of substring
containment. -/
theorem subOccurs_append (sub pre post : List Char) :
    subOccurs sub (pre ++ sub ++ post) = true := by
  rw [subOccurs, List.any_eq_true]
  refine ⟨pre.length, ?_, ?_⟩
  · simp only [List.mem_range, List.length_append]
    omega
  · rw [List.append_assoc, List.drop_left, List.take_left, beq_self_eq_true]

/-- C6 counterexample: a request whose staged target is classified as
neither image nor video, but whose source is also not an image, is answered
400 with the error exactly "Source file must be an image" — the source check
at api.py:216 runs first — so the body does not contain the substring
"must be an image or video" required by the claim for every such target. -/
theorem c6_counterexample :
    envBadSource.targetIsImage = false ∧ envBadSource.targetIsVideo = false ∧
    (face_swap envBadSource "r" "1").1.status = 400 ∧
    jsonField (face_swap envBadSource "r" "1").1.body "error" =
      some (.str "Source file must be an image") ∧
    ¬∃ pre post : String,
      jsonField (face_swap envBadSource "r" "1").1.body "error" =
        some (.str (pre ++ "must be an image or video" ++ post)) := by
  refine ⟨rfl, rfl, rfl, rfl, ?_⟩
  rintro ⟨pre, post, heq⟩
  have h0 : jsonField (face_swap envBadSource "r" "1").1.body "error" =
      some (.str "Source file must be an image") := rfl
  rw [h0] at heq
  simp only [Option.some.injEq, JVal.str.injEq] at heq
  have htrue : strContains "Source file must be an image"
      "must be an image or video" = true := by
    rw [strContains, heq, String.data_append, String.data_append]
    exact subOccurs_append _ _ _
  exact absurd htrue (by decide)

/-- C6 (amended): a request whose staged source is not an image is answered
400 with an error containing "must be an image"; one whose source is an
image but whose staged target is neither image nor video is answered 400
with an error containing "must be an image or video" (the source check runs
first, so a request failing both checks receives the source error). -/
theorem c6_media_kind_errors (env : Env) (rid pt : String) (p : SwapParams)
    (hinit : env.initError = none) (hs : env.hasSource = true)
    (ht : env.hasTarget = true) (hp : env.paramsResult = .ok p) :
    (env.sourceIsImage = false →
      (face_swap env rid pt).1.status = 400 ∧
      ∃ pre post, jsonField (face_swap env rid pt).1.body "error" =
        some (.str (pre ++ "must be an image" ++ post))) ∧
    ((env.sourceIsImage = true ∧ env.targetIsImage = false ∧
        env.targetIsVideo = false) →
      (face_swap env rid pt).1.status = 400 ∧
      ∃ pre post, jsonField (face_swap env rid pt).1.body "error" =
        some (.str (pre ++ "must be an image or video" ++ post))) := by
  cases env with
  | mk ie hsrc htgt pr si ti tv pie pve oe bc uo =>
    simp only at hinit hs ht hp
    subst hinit hs ht hp
    constructor
    · intro hsi
      simp only at hsi
      subst hsi
      refine ⟨rfl, "Source file ", "", ?_⟩
      simp [face_swap, face_swap_try, jsonField, errJson, List.lookup]
    · rintro ⟨h1, h2, h3⟩
      simp only at h1 h2 h3
      subst h1 h2 h3
      refine ⟨rfl, "Target file ", "", ?_⟩
      simp [face_swap, face_swap_try, jsonField, errJson, List.lookup]

/-- C6 witness: the source-side statement at a concrete non-image source. -/
theorem c6_media_kind_errors_witness :
    (face_swap envBadSource "r" "1").1.status = 400 ∧
    ∃ pre post, jsonField (face_swap envBadSource "r" "1").1.body "error" =
      some (.str (pre ++ "must be an image" ++ post)) :=
  (c6_media_kind_errors envBadSource "r" "1" defaultParams rfl rfl rfl rfl).1 rfl

/-- C7 counterexample: a successful image-target request with the bucket
configured, cloud storage requested and a succeeding upload is answered with
the URL JSON body, not a binary `image/png` attachment. -/
theorem c7_counterexample :
    (face_swap envImageCloud "r" "1").1.status = 200 ∧
    (face_swap envImageCloud "r" "1").2.finalStatus = "success" ∧
    (face_swap envImageCloud "r" "1").1.body.isFile = false ∧
    (face_swap envImageCloud "r" "1").1.body =
      urlBody "r" "https://storage.googleapis.com/bucket/out.png" "1" :=
  ⟨rfl, rfl, rfl, rfl⟩

/-- C7 (amended): every successful image-target request in which the
cloud-storage URL branch is not taken (storage unconfigured, not requested,
or the upload fails) is answered 200 with a binary body of mimetype
`image/png` sent as attachment. -/
theorem c7_image_direct_response (env : Env) (rid pt : String) (p : SwapParams)
    (hinit : env.initError = none) (hs : env.hasSource = true)
    (ht : env.hasTarget = true) (hp : env.paramsResult = .ok p)
    (hsi : env.sourceIsImage = true) (hti : env.targetIsImage = true)
    (hproc : env.processImageError = none) (hout : env.outputExists = true)
    (hnc : ¬(p.use_cloud_storage = true ∧ env.bucketConfigured = true ∧
        uploadYieldsUrl env = true)) :
    (face_swap env rid pt).1 =
      ⟨200, .file "image/png" true ("output_" ++ rid ++ ".png")⟩ := by
  have hpo : processOk env := by simp [processOk, hti, hproc]
  have hr := face_swap_success_resp env rid pt p hinit hs ht hp hsi (Or.inl hti)
    hpo hout
  have hb : (p.use_cloud_storage && env.bucketConfigured &&
      uploadYieldsUrl env) = false := by
    cases hcb : (p.use_cloud_storage && env.bucketConfigured &&
        uploadYieldsUrl env) with
    | false => rfl
    | true =>
      rw [Bool.and_eq_true, Bool.and_eq_true] at hcb
      exact absurd ⟨hcb.1.1, hcb.1.2, hcb.2⟩ hnc
  rw [hb] at hr
  simp only [Bool.false_eq_true, if_false] at hr
  rw [hr]
  simp [expectedContentType, expectedName, hti]

/-- C7 witness: the amended statement at a concrete image-target request
with no bucket configured. -/
theorem c7_image_direct_response_witness :
    (face_swap envImageDirect "r" "1").1 =
      ⟨200, .file "image/png" true ("output_" ++ "r" ++ ".png")⟩ :=
  c7_image_direct_response envImageDirect "r" "1" defaultParams rfl rfl rfl rfl
    rfl rfl rfl rfl (fun h => Bool.noConfusion h.2.1)

/-- C9: a successful image-target request with the bucket configured, cloud
storage requested and a succeeding upload is answered with the URL JSON
`{status, request_id, url, processing_time}` — the URL-vs-inline decision
does not inspect the target kind. -/
theorem c9_image_target_url (env : Env) (rid pt url : String) (p : SwapParams)
    (hinit : env.initError = none) (hs : env.hasSource = true)
    (ht : env.hasTarget = true) (hp : env.paramsResult = .ok p)
    (hsi : env.sourceIsImage = true) (hti : env.targetIsImage = true)
    (hproc : env.processImageError = none) (hout : env.outputExists = true)
    (hb : env.bucketConfigured = true) (hu : p.use_cloud_storage = true)
    (hup : env.uploadOutcome = .ok url) (hne : url ≠ "") :
    (face_swap env rid pt).1 = ⟨200, urlBody rid url pt⟩ := by
  have hpo : processOk env := by simp [processOk, hti, hproc]
  have hr := face_swap_success_resp env rid pt p hinit hs ht hp hsi (Or.inl hti)
    hpo hout
  have hy : uploadYieldsUrl env = true := by simp [uploadYieldsUrl, hup, hne]
  have hb' : (p.use_cloud_storage && env.bucketConfigured &&
      uploadYieldsUrl env) = true := by simp [hu, hb, hy]
  rw [hb'] at hr
  simp only [if_pos] at hr
  rw [hr]
  simp [urlOf, hup]

/-- C9 witness: the URL response at the concrete cloud-storage request. -/
theorem c9_image_target_url_witness :
    (face_swap envImageCloud "r" "1").1 =
      ⟨200, urlBody "r" "https://storage.googleapis.com/bucket/out.png" "1"⟩ :=
  c9_image_target_url envImageCloud "r" "1"
    "https://storage.googleapis.com/bucket/out.png" defaultParams
    rfl rfl rfl rfl rfl rfl rfl rfl rfl rfl rfl (by decide)
